import Mathlib

/-!
Shallow embedding of the analytics and data-management core of the
ShopInsight Pro bookkeeping dashboard (src/analytics.py, src/data_manager.py,
src/config.py), together with theorems settling the frozen claims about it.

Numbers are modelled as rationals (the Python code computes with IEEE floats;
all concrete inputs used below are chosen so the float computation agrees with
exact arithmetic).  Record fields that only feed presentation (customer,
category, supplier, dates used for display) are omitted; insight messages are
plain formatted text, so an insight is modelled by its severity `type` and its
`title`, and the one message component a claim depends on (the low-stock name
list and its "and N more" suffix) is modelled by dedicated definitions.
-/

namespace ShopInsight

/-- A sales record as written by sales.py and consumed by analytics.py:
`total_amount = quantity × unit_price`, `cost = quantity × cost_per_unit`,
`profit = total_amount − cost` are stored denormalised on the record. -/
structure SaleRecord where
  product : String
  quantity : ℚ
  total_amount : ℚ
  cost : ℚ
  profit : ℚ
  date : String
deriving Repr, DecidableEq

/-- An inventory item as written by inventory.py (fields used by analytics). -/
structure InventoryItem where
  name : String
  quantity : ℚ
  unit_price : ℚ
  reorder_level : ℚ
deriving Repr, DecidableEq

/-- An order record (fields used by analytics: amount and status). -/
structure OrderRecord where
  amount : ℚ
  status : String
deriving Repr, DecidableEq

/-- A debt record (fields used by analytics: amount and status). -/
structure DebtRecord where
  amount : ℚ
  status : String
deriving Repr, DecidableEq

/-! Thresholds from src/config.py. -/

def LOW_PROFIT_MARGIN_THRESHOLD : ℚ := 20

def HIGH_PROFIT_MARGIN_THRESHOLD : ℚ := 40

/-- config.py DEBT_WARNING_RATIO = 0.3. -/
def debtWarningRatio : ℚ := 3 / 10

def LOW_STOCK_THRESHOLD : ℚ := 10

/-- config.py SALES_GROWTH_THRESHOLD = 1.2. -/
def SALES_GROWTH_THRESHOLD : ℚ := 6 / 5

/-- config.py SALES_DECLINE_THRESHOLD = 0.8. -/
def SALES_DECLINE_THRESHOLD : ℚ := 4 / 5

/-! The local aggregates of calculate_metrics (analytics.py lines 30-43),
as named functions of the record lists. -/

/-- `sales_df['total_amount'].sum()`. -/
def total_revenue (sales : List SaleRecord) : ℚ :=
  (sales.map SaleRecord.total_amount).sum

/-- `sales_df['cost'].sum()`. -/
def total_cost (sales : List SaleRecord) : ℚ :=
  (sales.map SaleRecord.cost).sum

/-- `total_revenue - total_cost`. -/
def total_profit (sales : List SaleRecord) : ℚ :=
  total_revenue sales - total_cost sales

/-- `(total_profit / total_revenue * 100) if total_revenue > 0 else 0`. -/
def profit_margin (sales : List SaleRecord) : ℚ :=
  if total_revenue sales > 0 then total_profit sales / total_revenue sales * 100 else 0

/-- `sum(item['quantity'] * item['unit_price'] for item in inventory)`. -/
def inventory_value (inventory : List InventoryItem) : ℚ :=
  (inventory.map (fun item => item.quantity * item.unit_price)).sum

/-- `sum(order['amount'] for order in orders if order['status'] == 'Pending')`. -/
def pending_orders_value (orders : List OrderRecord) : ℚ :=
  ((orders.filter (fun o => o.status = "Pending")).map OrderRecord.amount).sum

/-- `sum(debt['amount'] for debt in debts if debt['status'] == 'Pending')`. -/
def total_debts_of (debts : List DebtRecord) : ℚ :=
  ((debts.filter (fun d => d.status = "Pending")).map DebtRecord.amount).sum

/-- The dict returned by calculate_metrics (analytics.py lines 45-54).
Its fields are exactly the keys of the source dict literal; `sales_df`
is the sales table in stored (insertion) order. -/
structure Metrics where
  total_revenue : ℚ
  total_profit : ℚ
  profit_margin : ℚ
  inventory_value : ℚ
  pending_orders : ℚ
  total_debts : ℚ
  sales_df : List SaleRecord
  total_sales_count : ℕ
deriving Repr, DecidableEq

/-- The keys of the dict literal returned by calculate_metrics
(analytics.py lines 45-54), in source order. -/
def metrics_result_keys : List String :=
  ["total_revenue", "total_profit", "profit_margin", "inventory_value",
   "pending_orders", "total_debts", "sales_df", "total_sales_count"]

/-- analytics.py calculate_metrics: `None` when the sales list is empty,
otherwise the metrics dict.  The username indirection through get_user_data
resolves each data type to the corresponding per-user list, so the function
is parameterised directly by the four lists. -/
def calculate_metrics (sales : List SaleRecord) (inventory : List InventoryItem)
    (orders : List OrderRecord) (debts : List DebtRecord) : Option Metrics :=
  if sales = [] then none
  else some
    { total_revenue := total_revenue sales
      total_profit := total_profit sales
      profit_margin := profit_margin sales
      inventory_value := inventory_value inventory
      pending_orders := pending_orders_value orders
      total_debts := total_debts_of debts
      sales_df := sales
      total_sales_count := sales.length }

/-- One insight, modelled by its severity tag and its title (the message body
is formatted text; the pieces a claim depends on are modelled separately). -/
structure Insight where
  type : String
  title : String
deriving Repr, DecidableEq

/-- `sales_df.tail(7)`: the last 7 rows in stored order (all rows when
fewer than 7 exist). -/
def tail7 (sales : List SaleRecord) : List SaleRecord :=
  sales.drop (sales.length - 7)

/-- `sales_df.head(7)`: the first 7 rows in stored order. -/
def head7 (sales : List SaleRecord) : List SaleRecord :=
  sales.take 7

/-- `rows['total_amount'].mean()` (only applied to non-empty row sets in the
source; division by zero yields 0 in ℚ). -/
def mean_total_amount (rows : List SaleRecord) : ℚ :=
  (rows.map SaleRecord.total_amount).sum / rows.length

/-- Insight 1 (analytics.py lines 65-75): whenever any sales exist the
top-performer success insight is emitted (`len(product_sales) > 0` holds
exactly when the dataframe is non-empty).  The groupby/sort that picks the
best-selling product only determines the message text, which is not
modelled. -/
def insight_top_performer (sales : List SaleRecord) : List Insight :=
  if sales = [] then []
  else [{ type := "success", title := "🏆 Top Performer" }]

/-- Insight 2 (analytics.py lines 77-89): profit-margin warning / success. -/
def insight_margin (margin : ℚ) : List Insight :=
  if margin < LOW_PROFIT_MARGIN_THRESHOLD then
    [{ type := "warning", title := "⚠️ Low Profit Margin" }]
  else if margin > HIGH_PROFIT_MARGIN_THRESHOLD then
    [{ type := "success", title := "💰 Excellent Margins" }]
  else []

/-- Insight 3 (analytics.py lines 91-108): sales trend, only when more than
7 records exist; strict comparisons against the growth/decline thresholds. -/
def insight_trend (sales : List SaleRecord) : List Insight :=
  if 7 < sales.length then
    let recent_sales := mean_total_amount (tail7 sales)
    let older_sales := mean_total_amount (head7 sales)
    if recent_sales > older_sales * SALES_GROWTH_THRESHOLD then
      [{ type := "success", title := "📈 Growth Trend" }]
    else if recent_sales < older_sales * SALES_DECLINE_THRESHOLD then
      [{ type := "warning", title := "📉 Declining Sales" }]
    else []
  else []

/-- Insight 4 (analytics.py lines 110-116): high-debt error alert. -/
def insight_debt (total_debts total_rev : ℚ) : List Insight :=
  if total_debts > total_rev * debtWarningRatio then
    [{ type := "error", title := "💳 High Debt Alert" }]
  else []

/-- analytics.py line 120: the items whose quantity is below the fixed
config threshold (10) — the item's own reorder_level is not consulted. -/
def low_stock (inventory : List InventoryItem) : List InventoryItem :=
  inventory.filter (fun item => item.quantity < LOW_STOCK_THRESHOLD)

/-- analytics.py line 122: the names joined into the message — the first
(up to) 3 low-stock items. -/
def low_stock_names (inventory : List InventoryItem) : List String :=
  ((low_stock inventory).take 3).map InventoryItem.name

/-- analytics.py line 123: `f" and {len(low_stock)-3} more"` when more than
3 items are low, else the empty string. -/
def more_text (inventory : List InventoryItem) : String :=
  if 3 < (low_stock inventory).length then
    " and " ++ toString ((low_stock inventory).length - 3) ++ " more"
  else ""

/-- Insight 5 (analytics.py lines 118-128): low-stock warning when the
low-stock list is non-empty. -/
def insight_low_stock (inventory : List InventoryItem) : List Insight :=
  if low_stock inventory = [] then []
  else [{ type := "warning", title := "📦 Low Stock Alert" }]

/-- Insight 6 (analytics.py lines 130-138): product-diversity info message
when fewer than 3 distinct products were sold (`nunique`). -/
def insight_diversity (sales : List SaleRecord) : List Insight :=
  if sales = [] then []
  else if (sales.map SaleRecord.product).dedup.length < 3 then
    [{ type := "info", title := "🎯 Product Diversity" }]
  else []

/-- analytics.py generate_insights: empty when calculate_metrics signals
no data, otherwise the six rules' outputs in source order. -/
def generate_insights (sales : List SaleRecord) (inventory : List InventoryItem)
    (orders : List OrderRecord) (debts : List DebtRecord) : List Insight :=
  match calculate_metrics sales inventory orders debts with
  | none => []
  | some metrics =>
      insight_top_performer metrics.sales_df ++
      insight_margin metrics.profit_margin ++
      insight_trend metrics.sales_df ++
      insight_debt metrics.total_debts metrics.total_revenue ++
      insight_low_stock inventory ++
      insight_diversity metrics.sales_df

/-- analytics.py predict_monthly_revenue: 0 when there is no data or fewer
than 7 sales, else mean of the last 7 total_amounts times 30. -/
def predict_monthly_revenue (sales : List SaleRecord) (inventory : List InventoryItem)
    (orders : List OrderRecord) (debts : List DebtRecord) : ℚ :=
  match calculate_metrics sales inventory orders debts with
  | none => 0
  | some metrics =>
      if metrics.sales_df.length < 7 then 0
      else mean_total_amount (tail7 metrics.sales_df) * 30

/-! Embedding of src/data_manager.py.  The on-disk JSON stores are one file
per data type, each holding a mapping from username to that user's record
list; `dict.get(username, [])` semantics make a missing user the empty list,
so a store is modelled as a total function from file path and username to a
record list.  Record contents are opaque to data_manager. -/

/-- File paths from src/config.py. -/
def SALES_FILE : String := "data/sales.json"

def INVENTORY_FILE : String := "data/inventory.json"

def ORDERS_FILE : String := "data/orders.json"

def DEBTS_FILE : String := "data/debts.json"

/-- The `file_map` dict built identically in get_user_data, save_user_data
and update_user_data; `none` models `data_type not in file_map`. -/
def file_map (data_type : String) : Option String :=
  if data_type = "sales" then some SALES_FILE
  else if data_type = "inventory" then some INVENTORY_FILE
  else if data_type = "orders" then some ORDERS_FILE
  else if data_type = "debts" then some DEBTS_FILE
  else none

/-- The persisted store: file path → username → record list. -/
def Store (Rec : Type) := String → String → List Rec

/-- data_manager.py get_user_data (lines 48-61). -/
def get_user_data {Rec : Type} (store : Store Rec) (username data_type : String) :
    List Rec :=
  match file_map data_type with
  | none => []
  | some filepath => store filepath username

/-- data_manager.py save_user_data (lines 63-82): returns the success flag and
the store after the write (untouched on the unknown-type path, which returns
before any file is read or written). -/
def save_user_data {Rec : Type} (store : Store Rec) (username data_type : String)
    (new_data : Rec) : Bool × Store Rec :=
  match file_map data_type with
  | none => (false, store)
  | some filepath =>
      (true, fun f u =>
        if f = filepath ∧ u = username then store filepath username ++ [new_data]
        else store f u)

/-- data_manager.py update_user_data (lines 84-99): wholesale replacement of
one user's list; untouched store on the unknown-type path. -/
def update_user_data {Rec : Type} (store : Store Rec) (username data_type : String)
    (updated_list : List Rec) : Bool × Store Rec :=
  match file_map data_type with
  | none => (false, store)
  | some filepath =>
      (true, fun f u =>
        if f = filepath ∧ u = username then updated_list
        else store f u)

/-! Named insights, one per emitting branch, and structural lemmas. -/

def topInsight : Insight := { type := "success", title := "🏆 Top Performer" }

def lowMarginInsight : Insight := { type := "warning", title := "⚠️ Low Profit Margin" }

def highMarginInsight : Insight := { type := "success", title := "💰 Excellent Margins" }

def growthInsight : Insight := { type := "success", title := "📈 Growth Trend" }

def declineInsight : Insight := { type := "warning", title := "📉 Declining Sales" }

def debtInsight : Insight := { type := "error", title := "💳 High Debt Alert" }

def lowStockInsight : Insight := { type := "warning", title := "📦 Low Stock Alert" }

def diversityInsight : Insight := { type := "info", title := "🎯 Product Diversity" }

lemma calculate_metrics_of_ne (sales : List SaleRecord) (inventory : List InventoryItem)
    (orders : List OrderRecord) (debts : List DebtRecord) (h : sales ≠ []) :
    calculate_metrics sales inventory orders debts = some
      { total_revenue := total_revenue sales
        total_profit := total_profit sales
        profit_margin := profit_margin sales
        inventory_value := inventory_value inventory
        pending_orders := pending_orders_value orders
        total_debts := total_debts_of debts
        sales_df := sales
        total_sales_count := sales.length } := by
  unfold calculate_metrics
  rw [if_neg h]

lemma generate_insights_of_ne (sales : List SaleRecord) (inventory : List InventoryItem)
    (orders : List OrderRecord) (debts : List DebtRecord) (h : sales ≠ []) :
    generate_insights sales inventory orders debts =
      insight_top_performer sales ++
      insight_margin (profit_margin sales) ++
      insight_trend sales ++
      insight_debt (total_debts_of debts) (total_revenue sales) ++
      insight_low_stock inventory ++
      insight_diversity sales := by
  unfold generate_insights
  rw [calculate_metrics_of_ne sales inventory orders debts h]

lemma insight_top_performer_cases (sales : List SaleRecord) :
    insight_top_performer sales = [] ∨ insight_top_performer sales = [topInsight] := by
  unfold insight_top_performer
  split_ifs <;> simp [topInsight]

lemma insight_margin_cases (margin : ℚ) :
    insight_margin margin = [] ∨ insight_margin margin = [lowMarginInsight] ∨
      insight_margin margin = [highMarginInsight] := by
  unfold insight_margin
  split_ifs <;> simp [lowMarginInsight, highMarginInsight]

lemma insight_trend_cases (sales : List SaleRecord) :
    insight_trend sales = [] ∨ insight_trend sales = [growthInsight] ∨
      insight_trend sales = [declineInsight] := by
  unfold insight_trend
  dsimp only
  split_ifs <;> simp [growthInsight, declineInsight]

lemma insight_debt_cases (total_debts total_rev : ℚ) :
    insight_debt total_debts total_rev = [] ∨
      insight_debt total_debts total_rev = [debtInsight] := by
  unfold insight_debt
  split_ifs <;> simp [debtInsight]

lemma insight_low_stock_cases (inventory : List InventoryItem) :
    insight_low_stock inventory = [] ∨ insight_low_stock inventory = [lowStockInsight] := by
  unfold insight_low_stock
  split_ifs <;> simp [lowStockInsight]

lemma insight_diversity_cases (sales : List SaleRecord) :
    insight_diversity sales = [] ∨ insight_diversity sales = [diversityInsight] := by
  unfold insight_diversity
  split_ifs <;> simp [diversityInsight]

lemma mem_generate_insights (sales : List SaleRecord) (inventory : List InventoryItem)
    (orders : List OrderRecord) (debts : List DebtRecord) (h : sales ≠ []) (x : Insight) :
    x ∈ generate_insights sales inventory orders debts ↔
      x ∈ insight_top_performer sales ∨
      x ∈ insight_margin (profit_margin sales) ∨
      x ∈ insight_trend sales ∨
      x ∈ insight_debt (total_debts_of debts) (total_revenue sales) ∨
      x ∈ insight_low_stock inventory ∨
      x ∈ insight_diversity sales := by
  rw [generate_insights_of_ne sales inventory orders debts h]
  simp [List.mem_append, or_assoc]

lemma growth_mem_trend (sales : List SaleRecord) :
    growthInsight ∈ insight_trend sales ↔
      7 < sales.length ∧
        mean_total_amount (head7 sales) * SALES_GROWTH_THRESHOLD <
          mean_total_amount (tail7 sales) := by
  unfold insight_trend
  dsimp only
  split_ifs with h1 h2 h3 <;> simp_all [growthInsight, declineInsight]

lemma decline_mem_trend (sales : List SaleRecord) :
    declineInsight ∈ insight_trend sales ↔
      7 < sales.length ∧
        ¬ mean_total_amount (head7 sales) * SALES_GROWTH_THRESHOLD <
            mean_total_amount (tail7 sales) ∧
        mean_total_amount (tail7 sales) <
          mean_total_amount (head7 sales) * SALES_DECLINE_THRESHOLD := by
  unfold insight_trend
  dsimp only
  split_ifs with h1 h2 h3 <;> simp_all [growthInsight, declineInsight]

lemma lowMargin_mem_margin (margin : ℚ) :
    lowMarginInsight ∈ insight_margin margin ↔ margin < LOW_PROFIT_MARGIN_THRESHOLD := by
  unfold insight_margin
  split_ifs with h1 h2 <;> simp_all [lowMarginInsight, highMarginInsight]

lemma highMargin_mem_margin (margin : ℚ) :
    highMarginInsight ∈ insight_margin margin ↔ HIGH_PROFIT_MARGIN_THRESHOLD < margin := by
  unfold insight_margin
  split_ifs with h1 h2 <;>
    simp_all [lowMarginInsight, highMarginInsight,
      LOW_PROFIT_MARGIN_THRESHOLD, HIGH_PROFIT_MARGIN_THRESHOLD]
  linarith

lemma lowStock_mem (inventory : List InventoryItem) :
    lowStockInsight ∈ insight_low_stock inventory ↔ low_stock inventory ≠ [] := by
  unfold insight_low_stock
  split_ifs with h1 <;> simp_all [lowStockInsight]

lemma growth_mem_iff (sales : List SaleRecord) (inventory : List InventoryItem)
    (orders : List OrderRecord) (debts : List DebtRecord) (h : sales ≠ []) :
    growthInsight ∈ generate_insights sales inventory orders debts ↔
      growthInsight ∈ insight_trend sales := by
  rw [mem_generate_insights sales inventory orders debts h]
  rcases insight_top_performer_cases sales with h1 | h1 <;>
  rcases insight_margin_cases (profit_margin sales) with h2 | h2 | h2 <;>
  rcases insight_debt_cases (total_debts_of debts) (total_revenue sales) with h4 | h4 <;>
  rcases insight_low_stock_cases inventory with h5 | h5 <;>
  rcases insight_diversity_cases sales with h6 | h6 <;>
  simp [h1, h2, h4, h5, h6, growthInsight, topInsight, lowMarginInsight,
    highMarginInsight, debtInsight, lowStockInsight, diversityInsight]

lemma decline_mem_iff (sales : List SaleRecord) (inventory : List InventoryItem)
    (orders : List OrderRecord) (debts : List DebtRecord) (h : sales ≠ []) :
    declineInsight ∈ generate_insights sales inventory orders debts ↔
      declineInsight ∈ insight_trend sales := by
  rw [mem_generate_insights sales inventory orders debts h]
  rcases insight_top_performer_cases sales with h1 | h1 <;>
  rcases insight_margin_cases (profit_margin sales) with h2 | h2 | h2 <;>
  rcases insight_debt_cases (total_debts_of debts) (total_revenue sales) with h4 | h4 <;>
  rcases insight_low_stock_cases inventory with h5 | h5 <;>
  rcases insight_diversity_cases sales with h6 | h6 <;>
  simp [h1, h2, h4, h5, h6, declineInsight, topInsight, lowMarginInsight,
    highMarginInsight, debtInsight, lowStockInsight, diversityInsight]

lemma lowMargin_mem_iff (sales : List SaleRecord) (inventory : List InventoryItem)
    (orders : List OrderRecord) (debts : List DebtRecord) (h : sales ≠ []) :
    lowMarginInsight ∈ generate_insights sales inventory orders debts ↔
      lowMarginInsight ∈ insight_margin (profit_margin sales) := by
  rw [mem_generate_insights sales inventory orders debts h]
  rcases insight_top_performer_cases sales with h1 | h1 <;>
  rcases insight_trend_cases sales with h3 | h3 | h3 <;>
  rcases insight_debt_cases (total_debts_of debts) (total_revenue sales) with h4 | h4 <;>
  rcases insight_low_stock_cases inventory with h5 | h5 <;>
  rcases insight_diversity_cases sales with h6 | h6 <;>
  simp [h1, h3, h4, h5, h6, lowMarginInsight, topInsight, growthInsight,
    declineInsight, debtInsight, lowStockInsight, diversityInsight]

lemma highMargin_mem_iff (sales : List SaleRecord) (inventory : List InventoryItem)
    (orders : List OrderRecord) (debts : List DebtRecord) (h : sales ≠ []) :
    highMarginInsight ∈ generate_insights sales inventory orders debts ↔
      highMarginInsight ∈ insight_margin (profit_margin sales) := by
  rw [mem_generate_insights sales inventory orders debts h]
  rcases insight_top_performer_cases sales with h1 | h1 <;>
  rcases insight_trend_cases sales with h3 | h3 | h3 <;>
  rcases insight_debt_cases (total_debts_of debts) (total_revenue sales) with h4 | h4 <;>
  rcases insight_low_stock_cases inventory with h5 | h5 <;>
  rcases insight_diversity_cases sales with h6 | h6 <;>
  simp [h1, h3, h4, h5, h6, highMarginInsight, topInsight, growthInsight,
    declineInsight, debtInsight, lowStockInsight, diversityInsight]

lemma lowStock_mem_iff (sales : List SaleRecord) (inventory : List InventoryItem)
    (orders : List OrderRecord) (debts : List DebtRecord) (h : sales ≠ []) :
    lowStockInsight ∈ generate_insights sales inventory orders debts ↔
      lowStockInsight ∈ insight_low_stock inventory := by
  rw [mem_generate_insights sales inventory orders debts h]
  rcases insight_top_performer_cases sales with h1 | h1 <;>
  rcases insight_margin_cases (profit_margin sales) with h2 | h2 | h2 <;>
  rcases insight_trend_cases sales with h3 | h3 | h3 <;>
  rcases insight_debt_cases (total_debts_of debts) (total_revenue sales) with h4 | h4 <;>
  rcases insight_diversity_cases sales with h6 | h6 <;>
  simp [h1, h2, h3, h4, h6, lowStockInsight, topInsight, lowMarginInsight,
    highMarginInsight, growthInsight, declineInsight, debtInsight, diversityInsight]

lemma mean_total_amount_nonneg (rows : List SaleRecord)
    (h : ∀ s ∈ rows, 0 ≤ s.total_amount) : 0 ≤ mean_total_amount rows := by
  unfold mean_total_amount
  apply div_nonneg
  · apply List.sum_nonneg
    intro x hx
    obtain ⟨s, hs, rfl⟩ := List.mem_map.mp hx
    exact h s hs
  · positivity

/-! Concrete record lists used as inputs below. -/

/-- A sale of one unit: total_amount and cost given, profit derived. -/
def mkSale (product : String) (amount cost : ℚ) : SaleRecord :=
  { product := product, quantity := 1, total_amount := amount, cost := cost,
    profit := amount - cost, date := "2024-01-01" }

/-- Eight sales: first-7 mean 100, last-7 mean exactly 120 = 1.2 × 100. -/
def boundary_growth_sales : List SaleRecord :=
  [mkSale "A" 100 0, mkSale "A" 100 0, mkSale "A" 100 0, mkSale "A" 100 0,
   mkSale "A" 100 0, mkSale "A" 100 0, mkSale "A" 100 0, mkSale "A" 240 0]

/-- Eight sales: first-7 mean 120, last-7 mean exactly 96 = 0.8 × 120. -/
def boundary_decline_sales : List SaleRecord :=
  [mkSale "A" 240 0, mkSale "A" 100 0, mkSale "A" 100 0, mkSale "A" 100 0,
   mkSale "A" 100 0, mkSale "A" 100 0, mkSale "A" 100 0, mkSale "A" 72 0]

/-- Eight sales: first-7 mean 100, last-7 mean 0 — a clear decline. -/
def declining_sales : List SaleRecord :=
  [mkSale "A" 700 0, mkSale "A" 0 0, mkSale "A" 0 0, mkSale "A" 0 0,
   mkSale "A" 0 0, mkSale "A" 0 0, mkSale "A" 0 0, mkSale "A" 0 0]

/-- Claim C1 fails at both boundaries: at exactly 8 records with recent mean
equal to 1.2 × the older mean the claim demands a growth message but the code
(strict `>`) emits none, and with recent mean equal to 0.8 × the older mean
the claim demands a decline warning but the code (strict `<`) emits none. -/
theorem c1_counterexample :
    (8 ≤ boundary_growth_sales.length ∧
      mean_total_amount (tail7 boundary_growth_sales) =
        mean_total_amount (head7 boundary_growth_sales) * SALES_GROWTH_THRESHOLD ∧
      growthInsight ∉ generate_insights boundary_growth_sales [] [] []) ∧
    (8 ≤ boundary_decline_sales.length ∧
      mean_total_amount (tail7 boundary_decline_sales) =
        mean_total_amount (head7 boundary_decline_sales) * SALES_DECLINE_THRESHOLD ∧
      declineInsight ∉ generate_insights boundary_decline_sales [] [] []) := by
  have hg : boundary_growth_sales ≠ [] := by simp [boundary_growth_sales]
  have hd : boundary_decline_sales ≠ [] := by simp [boundary_decline_sales]
  constructor
  · refine ⟨by simp [boundary_growth_sales], ?_, ?_⟩
    · simp [mean_total_amount, tail7, head7, boundary_growth_sales, mkSale,
        SALES_GROWTH_THRESHOLD]
      norm_num
    · rw [growth_mem_iff _ _ _ _ hg, growth_mem_trend]
      simp [mean_total_amount, tail7, head7, boundary_growth_sales, mkSale,
        SALES_GROWTH_THRESHOLD]
      norm_num
  · refine ⟨by simp [boundary_decline_sales], ?_, ?_⟩
    · simp [mean_total_amount, tail7, head7, boundary_decline_sales, mkSale,
        SALES_DECLINE_THRESHOLD]
      norm_num
    · rw [decline_mem_iff _ _ _ _ hd, decline_mem_trend]
      simp [mean_total_amount, tail7, head7, boundary_decline_sales, mkSale,
        SALES_GROWTH_THRESHOLD, SALES_DECLINE_THRESHOLD]
      norm_num

/-- Claim C1 (amended): for sales whose total_amounts are non-negative (as the
data model guarantees), the growth success message appears iff at least 8
records exist and the recent-7 mean is STRICTLY greater than 1.2 × the
first-7 mean, the decline warning appears iff at least 8 records exist and
the recent-7 mean is STRICTLY less than 0.8 × the first-7 mean, and the two
never appear together; with fewer than 8 records neither appears. -/
theorem c1_trend_insights (sales : List SaleRecord) (inventory : List InventoryItem)
    (orders : List OrderRecord) (debts : List DebtRecord)
    (hnn : ∀ s ∈ sales, 0 ≤ s.total_amount) :
    (growthInsight ∈ generate_insights sales inventory orders debts ↔
      8 ≤ sales.length ∧
        mean_total_amount (head7 sales) * SALES_GROWTH_THRESHOLD <
          mean_total_amount (tail7 sales)) ∧
    (declineInsight ∈ generate_insights sales inventory orders debts ↔
      8 ≤ sales.length ∧
        mean_total_amount (tail7 sales) <
          mean_total_amount (head7 sales) * SALES_DECLINE_THRESHOLD) ∧
    ¬(growthInsight ∈ generate_insights sales inventory orders debts ∧
      declineInsight ∈ generate_insights sales inventory orders debts) := by
  by_cases h : sales = []
  · subst h
    simp [generate_insights, calculate_metrics]
  · have holder : 0 ≤ mean_total_amount (head7 sales) :=
      mean_total_amount_nonneg _ (fun s hs => hnn s (List.take_subset 7 sales hs))
    have eg : SALES_GROWTH_THRESHOLD = 6 / 5 := rfl
    have ed : SALES_DECLINE_THRESHOLD = 4 / 5 := rfl
    rw [growth_mem_iff _ _ _ _ h, decline_mem_iff _ _ _ _ h,
      growth_mem_trend, decline_mem_trend]
    refine ⟨⟨fun ⟨a, b⟩ => ⟨a, b⟩, fun ⟨a, b⟩ => ⟨a, b⟩⟩, ?_, ?_⟩
    · constructor
      · rintro ⟨h1, -, h3⟩
        exact ⟨h1, h3⟩
      · rintro ⟨h1, h3⟩
        refine ⟨h1, ?_, h3⟩
        intro hgrow
        rw [eg] at hgrow
        rw [ed] at h3
        linarith
    · rintro ⟨⟨-, hgrow⟩, -, hngrow, -⟩
      exact hngrow hgrow

/-- Witness: a concrete 8-record declining sales list for which
`c1_trend_insights` applies and the decline branch fires. -/
theorem c1_trend_insights_witness :
    (∀ s ∈ declining_sales, 0 ≤ s.total_amount) ∧
    ((growthInsight ∈ generate_insights declining_sales [] [] [] ↔
      8 ≤ declining_sales.length ∧
        mean_total_amount (head7 declining_sales) * SALES_GROWTH_THRESHOLD <
          mean_total_amount (tail7 declining_sales)) ∧
    (declineInsight ∈ generate_insights declining_sales [] [] [] ↔
      8 ≤ declining_sales.length ∧
        mean_total_amount (tail7 declining_sales) <
          mean_total_amount (head7 declining_sales) * SALES_DECLINE_THRESHOLD) ∧
    ¬(growthInsight ∈ generate_insights declining_sales [] [] [] ∧
      declineInsight ∈ generate_insights declining_sales [] [] [])) :=
  ⟨by
    intro s hs
    fin_cases hs <;> norm_num [mkSale],
   c1_trend_insights declining_sales [] [] [] (by
    intro s hs
    fin_cases hs <;> norm_num [mkSale])⟩

/-- One sale with a 50% margin, used as a minimal non-empty sales list. -/
def one_sale : List SaleRecord := [mkSale "A" 100 50]

/-- One item that is NOT below its own reorder level (5 ≥ 3) but IS below the
fixed config threshold 10. -/
def c2_inventory : List InventoryItem :=
  [{ name := "Widget", quantity := 5, unit_price := 1, reorder_level := 3 }]

/-- Five items of which 4 are below the threshold 10 (the spec's example). -/
def c2_witness_inventory : List InventoryItem :=
  [{ name := "P1", quantity := 1, unit_price := 1, reorder_level := 10 },
   { name := "P2", quantity := 2, unit_price := 1, reorder_level := 10 },
   { name := "P3", quantity := 3, unit_price := 1, reorder_level := 10 },
   { name := "P4", quantity := 4, unit_price := 1, reorder_level := 10 },
   { name := "P5", quantity := 20, unit_price := 1, reorder_level := 10 }]

/-- Claim C2 fails: the code compares quantity against the fixed config
threshold 10, not against the item's own reorder_level.  Here no item is
below its reorder level (k = 0), yet the low-stock warning is emitted
because 5 < 10. -/
theorem c2_counterexample :
    (c2_inventory.filter (fun item => item.quantity < item.reorder_level)).length = 0 ∧
    lowStockInsight ∈ generate_insights one_sale c2_inventory [] [] := by
  constructor
  · norm_num [c2_inventory, List.filter_cons, decide_eq_true_eq]
  · rw [lowStock_mem_iff _ _ _ _ (by simp [one_sale]), lowStock_mem]
    norm_num [low_stock, c2_inventory, LOW_STOCK_THRESHOLD,
      List.filter_cons, decide_eq_true_eq]

/-- Claim C2 (amended): let k be the number of inventory items whose quantity
is strictly below the fixed config threshold LOW_STOCK_THRESHOLD = 10 (the
item's own reorder_level is not consulted by the insight rule).  For every
non-empty sales list the low-stock warning appears iff k > 0, the warning
names the first min(k, 3) low items, and its "and k−3 more" suffix is
present exactly when k > 3. -/
theorem c2_low_stock (sales : List SaleRecord) (inventory : List InventoryItem)
    (orders : List OrderRecord) (debts : List DebtRecord) (h : sales ≠ []) :
    (lowStockInsight ∈ generate_insights sales inventory orders debts ↔
      0 < (low_stock inventory).length) ∧
    low_stock inventory =
      inventory.filter (fun item => item.quantity < LOW_STOCK_THRESHOLD) ∧
    (low_stock_names inventory).length = min (low_stock inventory).length 3 ∧
    (more_text inventory ≠ "" ↔ 3 < (low_stock inventory).length) ∧
    (3 < (low_stock inventory).length →
      more_text inventory =
        " and " ++ toString ((low_stock inventory).length - 3) ++ " more") := by
  refine ⟨?_, rfl, ?_, ?_, ?_⟩
  · rw [lowStock_mem_iff _ _ _ _ h, lowStock_mem]
    simp [List.length_pos]
  · simp [low_stock_names, Nat.min_comm]
  · unfold more_text
    split_ifs with h3
    · simp only [h3, iff_true]
      intro heq
      have h2 := congrArg String.length heq
      simp [String.length_append] at h2
      exact absurd h2.1.1 (by decide)
    · simp [h3]
  · intro h3
    rw [more_text, if_pos h3]

/-- Witness: the spec's own example — 5 items, 4 below the threshold, so the
warning appears, 3 names are listed and the suffix says "and 1 more". -/
theorem c2_low_stock_witness :
    one_sale ≠ [] ∧
    ((lowStockInsight ∈ generate_insights one_sale c2_witness_inventory [] [] ↔
      0 < (low_stock c2_witness_inventory).length) ∧
    low_stock c2_witness_inventory =
      c2_witness_inventory.filter (fun item => item.quantity < LOW_STOCK_THRESHOLD) ∧
    (low_stock_names c2_witness_inventory).length =
      min (low_stock c2_witness_inventory).length 3 ∧
    (more_text c2_witness_inventory ≠ "" ↔
      3 < (low_stock c2_witness_inventory).length) ∧
    (3 < (low_stock c2_witness_inventory).length →
      more_text c2_witness_inventory =
        " and " ++ toString ((low_stock c2_witness_inventory).length - 3) ++ " more")) :=
  ⟨by simp [one_sale], c2_low_stock one_sale c2_witness_inventory [] [] (by simp [one_sale])⟩

lemma total_revenue_nonneg (sales : List SaleRecord)
    (hnn : ∀ s ∈ sales, 0 ≤ s.total_amount) : 0 ≤ total_revenue sales := by
  apply List.sum_nonneg
  intro x hx
  obtain ⟨s, hs, rfl⟩ := List.mem_map.mp hx
  exact hnn s hs

/-- Claim C3 fails: the metrics result exists for a concrete non-empty sales
list, but the returned dict (its keys are the literal at analytics.py lines
45-54) has no "total_cost" key at all. -/
theorem c3_counterexample :
    calculate_metrics one_sale [] [] [] ≠ none ∧
    "total_cost" ∉ metrics_result_keys := by
  constructor
  · simp [calculate_metrics, one_sale]
  · decide

/-- Claim C3 (amended): calculate_metrics computes the sum of the cost fields
internally and the returned total_profit equals total_revenue minus that sum,
but the returned dict does not contain a total_cost field. -/
theorem c3_total_cost (sales : List SaleRecord) (inventory : List InventoryItem)
    (orders : List OrderRecord) (debts : List DebtRecord) (m : Metrics)
    (hm : calculate_metrics sales inventory orders debts = some m) :
    m.total_profit =
      (sales.map SaleRecord.total_amount).sum - (sales.map SaleRecord.cost).sum ∧
    "total_cost" ∉ metrics_result_keys := by
  have h : sales ≠ [] := by
    intro he
    subst he
    simp [calculate_metrics] at hm
  rw [calculate_metrics_of_ne _ _ _ _ h] at hm
  injection hm with hm2
  subst hm2
  exact ⟨rfl, by decide⟩

/-- The metrics dict for the single sale `one_sale`. -/
def one_sale_metrics : Metrics :=
  { total_revenue := 100, total_profit := 50, profit_margin := 50,
    inventory_value := 0, pending_orders := 0, total_debts := 0,
    sales_df := one_sale, total_sales_count := 1 }

lemma calculate_metrics_one_sale :
    calculate_metrics one_sale [] [] [] = some one_sale_metrics := by
  rw [calculate_metrics_of_ne _ _ _ _ (by simp [one_sale])]
  unfold one_sale_metrics
  norm_num [total_revenue, total_cost, total_profit, profit_margin,
    inventory_value, pending_orders_value, total_debts_of, one_sale, mkSale]

/-- Witness: the amended C3 at the concrete single-sale input. -/
theorem c3_total_cost_witness :
    calculate_metrics one_sale [] [] [] = some one_sale_metrics ∧
    (one_sale_metrics.total_profit =
      (one_sale.map SaleRecord.total_amount).sum - (one_sale.map SaleRecord.cost).sum ∧
    "total_cost" ∉ metrics_result_keys) :=
  ⟨calculate_metrics_one_sale,
   c3_total_cost one_sale [] [] [] one_sale_metrics calculate_metrics_one_sale⟩

/-- Claim C4: with at least 7 sales, predicted monthly revenue is the mean
total_amount of the last 7 records (in stored order) times 30; with fewer
than 7 (including none) it is 0. -/
theorem c4_predict (sales : List SaleRecord) (inventory : List InventoryItem)
    (orders : List OrderRecord) (debts : List DebtRecord) :
    (7 ≤ sales.length →
      predict_monthly_revenue sales inventory orders debts =
        ((sales.drop (sales.length - 7)).map SaleRecord.total_amount).sum / 7 * 30) ∧
    (sales.length < 7 →
      predict_monthly_revenue sales inventory orders debts = 0) := by
  constructor
  · intro h7
    have h : sales ≠ [] := by
      intro he
      subst he
      simp at h7
    unfold predict_monthly_revenue
    rw [calculate_metrics_of_ne _ _ _ _ h]
    dsimp only
    rw [if_neg (by omega : ¬ sales.length < 7)]
    unfold mean_total_amount tail7
    have hlen : (sales.drop (sales.length - 7)).length = 7 := by
      rw [List.length_drop]
      omega
    rw [hlen]
    norm_num
  · intro h7
    by_cases h : sales = []
    · subst h
      rfl
    · unfold predict_monthly_revenue
      rw [calculate_metrics_of_ne _ _ _ _ h]
      dsimp only
      rw [if_pos h7]

/-- Witness: an 8-record list (≥ 7) and a 1-record list (< 7). -/
theorem c4_predict_witness :
    7 ≤ boundary_growth_sales.length ∧
    predict_monthly_revenue boundary_growth_sales [] [] [] =
      ((boundary_growth_sales.drop (boundary_growth_sales.length - 7)).map
        SaleRecord.total_amount).sum / 7 * 30 ∧
    one_sale.length < 7 ∧
    predict_monthly_revenue one_sale [] [] [] = 0 :=
  ⟨by decide,
   (c4_predict boundary_growth_sales [] [] []).1 (by decide),
   by decide,
   (c4_predict one_sale [] [] []).2 (by decide)⟩

/-- Claim C5: with an empty sales list, calculate_metrics returns the absent
result (`none`, the "no data" signal, not an error) and generate_insights
returns the empty insight list before any rule is evaluated; every function
of the embedding is total, so no exception is raised. -/
theorem c5_empty_sales (inventory : List InventoryItem) (orders : List OrderRecord)
    (debts : List DebtRecord) :
    calculate_metrics [] inventory orders debts = none ∧
    generate_insights [] inventory orders debts = [] :=
  ⟨rfl, rfl⟩

/-- Claim C6: for every non-empty sales list with the data model's
non-negative total_amounts, total_profit = total_revenue − total_cost, and
profit_margin is 0 at zero revenue and 100 × profit / revenue otherwise. -/
theorem c6_metrics_identities (sales : List SaleRecord) (inventory : List InventoryItem)
    (orders : List OrderRecord) (debts : List DebtRecord) (m : Metrics)
    (hnn : ∀ s ∈ sales, 0 ≤ s.total_amount)
    (hm : calculate_metrics sales inventory orders debts = some m) :
    m.total_profit = m.total_revenue - (sales.map SaleRecord.cost).sum ∧
    (m.total_revenue = 0 → m.profit_margin = 0) ∧
    (m.total_revenue ≠ 0 →
      m.profit_margin = 100 * m.total_profit / m.total_revenue) := by
  have h : sales ≠ [] := by
    intro he
    subst he
    simp [calculate_metrics] at hm
  rw [calculate_metrics_of_ne _ _ _ _ h] at hm
  injection hm with hm2
  subst hm2
  dsimp only
  refine ⟨rfl, ?_, ?_⟩
  · intro h0
    unfold profit_margin
    rw [if_neg]
    rw [h0]
    exact lt_irrefl 0
  · intro h0
    have hpos : 0 < total_revenue sales :=
      lt_of_le_of_ne (total_revenue_nonneg sales hnn) (Ne.symm h0)
    unfold profit_margin
    rw [if_pos hpos]
    ring

/-- Witness: the amended C6 at the concrete single-sale input. -/
theorem c6_metrics_identities_witness :
    (∀ s ∈ one_sale, 0 ≤ s.total_amount) ∧
    calculate_metrics one_sale [] [] [] = some one_sale_metrics ∧
    (one_sale_metrics.total_profit =
      one_sale_metrics.total_revenue - (one_sale.map SaleRecord.cost).sum ∧
    (one_sale_metrics.total_revenue = 0 → one_sale_metrics.profit_margin = 0) ∧
    (one_sale_metrics.total_revenue ≠ 0 →
      one_sale_metrics.profit_margin =
        100 * one_sale_metrics.total_profit / one_sale_metrics.total_revenue)) :=
  ⟨by
    intro s hs
    fin_cases hs
    norm_num [mkSale],
   calculate_metrics_one_sale,
   c6_metrics_identities one_sale [] [] [] one_sale_metrics
     (by
       intro s hs
       fin_cases hs
       norm_num [mkSale])
     calculate_metrics_one_sale⟩

/-- Claim C7: for every non-empty sales list, the error-severity insights are
exactly one debt alert when pending debts exceed 0.3 × revenue, and there are
none otherwise (no other rule emits error severity, and the debt alert is
error-typed, so it also cannot appear when the condition fails). -/
theorem c7_debt_alert (sales : List SaleRecord) (inventory : List InventoryItem)
    (orders : List OrderRecord) (debts : List DebtRecord) (h : sales ≠ []) :
    (generate_insights sales inventory orders debts).filter
        (fun i => i.type = "error") =
      (if total_debts_of debts > total_revenue sales * debtWarningRatio
        then [debtInsight] else []) := by
  rw [generate_insights_of_ne _ _ _ _ h]
  rcases insight_top_performer_cases sales with h1 | h1 <;>
  rcases insight_margin_cases (profit_margin sales) with h2 | h2 | h2 <;>
  rcases insight_trend_cases sales with h3 | h3 | h3 <;>
  rcases insight_low_stock_cases inventory with h5 | h5 <;>
  rcases insight_diversity_cases sales with h6 | h6 <;>
  rw [h1, h2, h3, h5, h6] <;>
  unfold insight_debt <;>
  split_ifs <;>
  simp [topInsight, lowMarginInsight, highMarginInsight, growthInsight,
    declineInsight, lowStockInsight, diversityInsight, debtInsight]

/-- Sales of revenue 1000 and pending debt lists from the spec's example. -/
def one_sale1000 : List SaleRecord := [mkSale "A" 1000 0]

def debts400 : List DebtRecord := [{ amount := 400, status := "Pending" }]

def debts200 : List DebtRecord := [{ amount := 200, status := "Pending" }]

/-- Witness: revenue 1000 with pending debts 400 (> 300) and 200 (≤ 300). -/
theorem c7_debt_alert_witness :
    one_sale1000 ≠ [] ∧
    ((generate_insights one_sale1000 [] [] debts400).filter
        (fun i => i.type = "error") =
      (if total_debts_of debts400 > total_revenue one_sale1000 * debtWarningRatio
        then [debtInsight] else [])) ∧
    ((generate_insights one_sale1000 [] [] debts200).filter
        (fun i => i.type = "error") =
      (if total_debts_of debts200 > total_revenue one_sale1000 * debtWarningRatio
        then [debtInsight] else [])) :=
  ⟨by simp [one_sale1000],
   c7_debt_alert one_sale1000 [] [] debts400 (by simp [one_sale1000]),
   c7_debt_alert one_sale1000 [] [] debts200 (by simp [one_sale1000])⟩

/-- Claim C8: for every non-empty sales list, the low-margin warning appears
iff profit_margin < 20, the high-margin success appears iff profit_margin
> 40, and the two never appear together. -/
theorem c8_margin_insights (sales : List SaleRecord) (inventory : List InventoryItem)
    (orders : List OrderRecord) (debts : List DebtRecord) (h : sales ≠ []) :
    (lowMarginInsight ∈ generate_insights sales inventory orders debts ↔
      profit_margin sales < LOW_PROFIT_MARGIN_THRESHOLD) ∧
    (highMarginInsight ∈ generate_insights sales inventory orders debts ↔
      HIGH_PROFIT_MARGIN_THRESHOLD < profit_margin sales) ∧
    ¬(lowMarginInsight ∈ generate_insights sales inventory orders debts ∧
      highMarginInsight ∈ generate_insights sales inventory orders debts) := by
  rw [lowMargin_mem_iff _ _ _ _ h, highMargin_mem_iff _ _ _ _ h,
    lowMargin_mem_margin, highMargin_mem_margin]
  refine ⟨Iff.rfl, Iff.rfl, ?_⟩
  rintro ⟨hl, hh⟩
  have e1 : LOW_PROFIT_MARGIN_THRESHOLD = 20 := rfl
  have e2 : HIGH_PROFIT_MARGIN_THRESHOLD = 40 := rfl
  rw [e1] at hl
  rw [e2] at hh
  linarith

/-- Witness: the single 50%-margin sale — high-margin success fires. -/
theorem c8_margin_insights_witness :
    one_sale ≠ [] ∧
    ((lowMarginInsight ∈ generate_insights one_sale [] [] [] ↔
      profit_margin one_sale < LOW_PROFIT_MARGIN_THRESHOLD) ∧
    (highMarginInsight ∈ generate_insights one_sale [] [] [] ↔
      HIGH_PROFIT_MARGIN_THRESHOLD < profit_margin one_sale) ∧
    ¬(lowMarginInsight ∈ generate_insights one_sale [] [] [] ∧
      highMarginInsight ∈ generate_insights one_sale [] [] [])) :=
  ⟨by simp [one_sale], c8_margin_insights one_sale [] [] [] (by simp [one_sale])⟩

/-- Claim C9: for every data type outside sales/inventory/orders/debts,
get_user_data returns the empty list, and save_user_data and update_user_data
return False with the persisted store completely unchanged (both return
before any file is read or written). -/
theorem c9_unknown_data_type {Rec : Type} (store : Store Rec)
    (username data_type : String) (new_data : Rec) (updated_list : List Rec)
    (h : data_type ∉ ["sales", "inventory", "orders", "debts"]) :
    get_user_data store username data_type = [] ∧
    save_user_data store username data_type new_data = (false, store) ∧
    update_user_data store username data_type updated_list = (false, store) := by
  simp only [List.mem_cons, List.not_mem_nil, or_false, not_or] at h
  have hfm : file_map data_type = none := by
    simp [file_map, h.1, h.2.1, h.2.2.1, h.2.2.2]
  simp [get_user_data, save_user_data, update_user_data, hfm]

/-- Witness: the unknown data type "customers" against a concrete store. -/
theorem c9_unknown_data_type_witness :
    "customers" ∉ ["sales", "inventory", "orders", "debts"] ∧
    (get_user_data (fun _ _ => ([] : List ℕ)) "alice" "customers" = [] ∧
    save_user_data (fun _ _ => ([] : List ℕ)) "alice" "customers" 7 =
      (false, fun _ _ => ([] : List ℕ)) ∧
    update_user_data (fun _ _ => ([] : List ℕ)) "alice" "customers" [7] =
      (false, fun _ _ => ([] : List ℕ))) :=
  ⟨by decide,
   c9_unknown_data_type (fun _ _ => ([] : List ℕ)) "alice" "customers" 7 [7]
     (by decide)⟩

/-- Claim C10: generate_insights always returns at most 6 insights, their
titles are pairwise distinct (so each rule contributes at most one), and
every severity tag is one of success, warning, error, info. -/
theorem c10_insights_shape (sales : List SaleRecord) (inventory : List InventoryItem)
    (orders : List OrderRecord) (debts : List DebtRecord) :
    (generate_insights sales inventory orders debts).length ≤ 6 ∧
    (∀ i ∈ generate_insights sales inventory orders debts,
      i.type = "success" ∨ i.type = "warning" ∨ i.type = "error" ∨
        i.type = "info") ∧
    ((generate_insights sales inventory orders debts).map Insight.title).Nodup := by
  by_cases h : sales = []
  · subst h
    simp [generate_insights, calculate_metrics]
  · rw [generate_insights_of_ne _ _ _ _ h]
    rcases insight_top_performer_cases sales with h1 | h1 <;>
    rcases insight_margin_cases (profit_margin sales) with h2 | h2 | h2 <;>
    rcases insight_trend_cases sales with h3 | h3 | h3 <;>
    rcases insight_debt_cases (total_debts_of debts) (total_revenue sales) with h4 | h4 <;>
    rcases insight_low_stock_cases inventory with h5 | h5 <;>
    rcases insight_diversity_cases sales with h6 | h6 <;>
    rw [h1, h2, h3, h4, h5, h6] <;>
    simp [topInsight, lowMarginInsight, highMarginInsight, growthInsight,
      declineInsight, debtInsight, lowStockInsight, diversityInsight]

end ShopInsight
